import Mathlib

/-!
Verification of the `mwe_glfw` demo (src/src/main.cpp).

The program is a straight-line OpenGL demo.  We embed it shallowly:
each graphics-API function the program calls is a constructor of a call
inductive; each of the program's functions is translated to a Lean
function producing its return value together with the exact list of
calls it issues, in source order.  Names returned by the `glGen*` /
`glCreate*` allocators and the compile/link status flags and logs
reported by the driver are inputs (an oracle), since they come from
outside the program.  A small state machine (`glStep`) gives semantics
to the binding calls, following the OpenGL specification: the array
buffer binding is global, while the element-array buffer binding is
stored inside the currently bound vertex array object.
-/

set_option autoImplicit false
set_option maxRecDepth 16384

namespace MweGlfw

/-! ### Geometry setup (`prepare_drawing_data_and_opengl_drawing_data`) -/

/-- The flat vertex array from main.cpp lines 42-47: four positions,
three float components each, in source order.  `0.5` is exactly
representable, so rationals model the float literals exactly. -/
def vertices : List ℚ :=
  [ (1:ℚ)/2,  (1:ℚ)/2,  0,   -- top right
    (1:ℚ)/2, -(1:ℚ)/2,  0,   -- bottom right
   -(1:ℚ)/2, -(1:ℚ)/2,  0,   -- bottom left
   -(1:ℚ)/2,  (1:ℚ)/2,  0 ]  -- top left

/-- The index array from main.cpp lines 48-52. -/
def indices : List ℕ :=
  [0, 1, 3,   -- first Triangle
   1, 2, 3]   -- second Triangle

/-- Group a flat attribute stream into 3-component vectors, the way the
single vertex attribute (size 3, `GL_FLOAT`) is decoded. -/
def groupVec3 : List ℚ → List (ℚ × ℚ × ℚ)
  | x :: y :: z :: rest => (x, y, z) :: groupVec3 rest
  | _ => []

/-- The two buffer-binding targets the program uses. -/
inductive BufferTarget where
  | arrayBuffer
  | elementArrayBuffer
deriving DecidableEq

/-- Vertex attribute component type (only `GL_FLOAT` is used). -/
inductive AttribType where
  | floatType
deriving DecidableEq

/-- The graphics-API calls issued during geometry setup, with their
arguments.  `genVertexArrays` / `genBuffers` record the name the driver
handed back. -/
inductive GLCall where
  | genVertexArrays (name : ℕ)
  | genBuffers (name : ℕ)
  | bindVertexArray (name : ℕ)
  | bindBuffer (target : BufferTarget) (name : ℕ)
  | bufferDataF (target : BufferTarget) (data : List ℚ)
  | bufferDataU (target : BufferTarget) (data : List ℕ)
  | vertexAttribPointer (index size : ℕ) (type : AttribType)
      (normalized : Bool) (stride offset : ℕ)
  | enableVertexAttribArray (index : ℕ)
deriving DecidableEq

/-- Return value of geometry setup, as in main.cpp lines 33-37. -/
structure OpenGLDrawingData where
  vbo_name : ℕ
  ibo_name : ℕ
  vao_name : ℕ
deriving DecidableEq

/-- The exact call sequence of
`prepare_drawing_data_and_opengl_drawing_data` (main.cpp lines 39-93),
given the names the driver allocates for the vao, vbo and ibo.
`3 * sizeof(float) = 12` is the stride passed to
`glVertexAttribPointer`. -/
def prepareTrace (vao vbo ibo : ℕ) : List GLCall :=
  [ .genVertexArrays vao,
    .genBuffers vbo,
    .genBuffers ibo,
    .bindVertexArray vao,
    .bindBuffer .arrayBuffer vbo,
    .bufferDataF .arrayBuffer vertices,
    .bindBuffer .elementArrayBuffer ibo,
    .bufferDataU .elementArrayBuffer indices,
    .vertexAttribPointer 0 3 .floatType false 12 0,
    .enableVertexAttribArray 0,
    .bindBuffer .arrayBuffer 0,
    .bindVertexArray 0 ]

/-- The function's return value (main.cpp line 92: `{vbo, ibo, vao}`)
paired with the calls it issued. -/
def prepare_drawing_data_and_opengl_drawing_data (vao vbo ibo : ℕ) :
    OpenGLDrawingData × List GLCall :=
  (⟨vbo, ibo, vao⟩, prepareTrace vao vbo ibo)

/-- Set the binding of key `k` in an association list. -/
def setEntry {α : Type} (k : ℕ) (v : α) : List (ℕ × α) → List (ℕ × α)
  | [] => [(k, v)]
  | (k', v') :: rest =>
      if k = k' then (k, v) :: rest else (k', v') :: setEntry k v rest

/-- OpenGL binding-and-contents state.  Name 0 means "nothing bound".
Per the GL spec, the `GL_ELEMENT_ARRAY_BUFFER` binding is part of the
state of the bound vertex array object (`vaoElement`), not global,
while the `GL_ARRAY_BUFFER` binding is global. -/
structure GLState where
  boundVAO : ℕ
  arrayBufferBinding : ℕ
  globalElementBinding : ℕ
  vaoElement : List (ℕ × ℕ)
  bufferContentsF : List (ℕ × List ℚ)
  bufferContentsU : List (ℕ × List ℕ)
deriving DecidableEq

def initGLState : GLState :=
  { boundVAO := 0, arrayBufferBinding := 0, globalElementBinding := 0,
    vaoElement := [], bufferContentsF := [], bufferContentsU := [] }

/-- The buffer name a data upload to `target` lands in. -/
def targetBinding (s : GLState) : BufferTarget → ℕ
  | .arrayBuffer => s.arrayBufferBinding
  | .elementArrayBuffer =>
      if s.boundVAO = 0 then s.globalElementBinding
      else ((s.vaoElement.lookup s.boundVAO).getD 0)

/-- One step of the GL binding state machine. -/
def glStep (s : GLState) : GLCall → GLState
  | .genVertexArrays _ => s
  | .genBuffers _ => s
  | .bindVertexArray n => { s with boundVAO := n }
  | .bindBuffer .arrayBuffer n => { s with arrayBufferBinding := n }
  | .bindBuffer .elementArrayBuffer n =>
      if s.boundVAO = 0 then { s with globalElementBinding := n }
      else { s with vaoElement := setEntry s.boundVAO n s.vaoElement }
  | .bufferDataF target d =>
      { s with bufferContentsF := setEntry (targetBinding s target) d s.bufferContentsF }
  | .bufferDataU target d =>
      { s with bufferContentsU := setEntry (targetBinding s target) d s.bufferContentsU }
  | .vertexAttribPointer _ _ _ _ _ _ => s
  | .enableVertexAttribArray _ => s

/-- Run a call list through the binding state machine. -/
def runGL (calls : List GLCall) (s : GLState) : GLState :=
  calls.foldl glStep s

/-- Evaluation of the geometry-setup trace on the state machine, for
any driver-allocated names (a real vao name is nonzero). -/
theorem runGL_prepareTrace (vao vbo ibo : ℕ) (hvao : vao ≠ 0) :
    runGL (prepareTrace vao vbo ibo) initGLState =
      { boundVAO := 0, arrayBufferBinding := 0, globalElementBinding := 0,
        vaoElement := [(vao, ibo)],
        bufferContentsF := [(vbo, vertices)],
        bufferContentsU := [(ibo, indices)] } := by
  simp [runGL, prepareTrace, glStep, initGLState, targetBinding, setEntry,
    List.foldl, hvao, List.lookup]

/-- A call that binds (or, with name 0, unbinds) the vertex buffer. -/
def isArrayBufferBind : GLCall → Bool
  | .bindBuffer .arrayBuffer _ => true
  | _ => false

/-- A call that unbinds the index buffer. -/
def isElementUnbind : GLCall → Bool
  | .bindBuffer .elementArrayBuffer n => n = 0
  | _ => false

/-- Claim C1: the vertex array uploaded to the vertex buffer by
geometry setup consists of exactly the 4 positions
`(0.5,0.5,0), (0.5,-0.5,0), (-0.5,-0.5,0), (-0.5,0.5,0)`, in that
order, each a 3-component float: after running the setup trace, the
vertex buffer's contents are exactly `vertices`, which decode, under
the configured 3-component attribute, to those four positions; the
trace configures attribute 0 as 3 floats. -/
theorem vertex_buffer_holds_quad_positions (vao vbo ibo : ℕ) (hvao : vao ≠ 0) :
    ((runGL (prepareTrace vao vbo ibo) initGLState).bufferContentsF.lookup vbo
        = some vertices)
    ∧ groupVec3 vertices =
        [((1:ℚ)/2, (1:ℚ)/2, 0), ((1:ℚ)/2, -(1:ℚ)/2, 0),
         (-(1:ℚ)/2, -(1:ℚ)/2, 0), (-(1:ℚ)/2, (1:ℚ)/2, 0)]
    ∧ vertices.length = 12
    ∧ GLCall.vertexAttribPointer 0 3 .floatType false 12 0 ∈
        prepareTrace vao vbo ibo := by
  refine ⟨?_, by norm_num [groupVec3, vertices], by norm_num [vertices], ?_⟩
  · rw [runGL_prepareTrace vao vbo ibo hvao]
    simp [List.lookup]
  · simp [prepareTrace]

/-- Witness for C1 at driver names vao = 1, vbo = 2, ibo = 3. -/
theorem vertex_buffer_holds_quad_positions_witness :
    (1 : ℕ) ≠ 0 ∧
    (((runGL (prepareTrace 1 2 3) initGLState).bufferContentsF.lookup 2
        = some vertices)
    ∧ groupVec3 vertices =
        [((1:ℚ)/2, (1:ℚ)/2, 0), ((1:ℚ)/2, -(1:ℚ)/2, 0),
         (-(1:ℚ)/2, -(1:ℚ)/2, 0), (-(1:ℚ)/2, (1:ℚ)/2, 0)]
    ∧ vertices.length = 12
    ∧ GLCall.vertexAttribPointer 0 3 .floatType false 12 0 ∈
        prepareTrace 1 2 3) :=
  ⟨by decide, vertex_buffer_holds_quad_positions 1 2 3 (by decide)⟩

/-- Claim C2: the index array uploaded to the index buffer by geometry
setup is exactly `[0,1,3,1,2,3]`: 6 indices, forming the triangles
`(0,1,3)` and `(1,2,3)`. -/
theorem index_buffer_holds_quad_indices (vao vbo ibo : ℕ) (hvao : vao ≠ 0) :
    ((runGL (prepareTrace vao vbo ibo) initGLState).bufferContentsU.lookup ibo
        = some indices)
    ∧ indices = [0, 1, 3, 1, 2, 3]
    ∧ indices.length = 6 := by
  refine ⟨?_, by decide, by decide⟩
  rw [runGL_prepareTrace vao vbo ibo hvao]
  simp [List.lookup]

/-- Witness for C2 at driver names vao = 1, vbo = 2, ibo = 3. -/
theorem index_buffer_holds_quad_indices_witness :
    (1 : ℕ) ≠ 0 ∧
    (((runGL (prepareTrace 1 2 3) initGLState).bufferContentsU.lookup 3
        = some indices)
    ∧ indices = [0, 1, 3, 1, 2, 3]
    ∧ indices.length = 6) :=
  ⟨by decide, index_buffer_holds_quad_indices 1 2 3 (by decide)⟩

/-- Claim C8: geometry setup binds and then unbinds the vertex buffer
(its array-buffer binding calls are exactly a bind of the vbo followed
by a bind of 0), never unbinds the index buffer (no
`bindBuffer elementArrayBuffer 0` call occurs at all, in particular
not while the vao is bound), and on return the index buffer remains
associated with the vertex array object. -/
theorem prepare_keeps_index_buffer_associated (vao vbo ibo : ℕ)
    (hvao : vao ≠ 0) (hvbo : vbo ≠ 0) (hibo : ibo ≠ 0) :
    ((prepareTrace vao vbo ibo).filter isArrayBufferBind
        = [.bindBuffer .arrayBuffer vbo, .bindBuffer .arrayBuffer 0])
    ∧ (prepareTrace vao vbo ibo).filter isElementUnbind = []
    ∧ ((runGL (prepareTrace vao vbo ibo) initGLState).vaoElement.lookup vao
        = some ibo) := by
  refine ⟨?_, ?_, ?_⟩
  · simp [prepareTrace, isArrayBufferBind]
  · simp [prepareTrace, isElementUnbind, hibo]
  · rw [runGL_prepareTrace vao vbo ibo hvao]
    simp [List.lookup]

/-- Witness for C8 at driver names vao = 1, vbo = 2, ibo = 3. -/
theorem prepare_keeps_index_buffer_associated_witness :
    ((1 : ℕ) ≠ 0 ∧ (2 : ℕ) ≠ 0 ∧ (3 : ℕ) ≠ 0) ∧
    (((prepareTrace 1 2 3).filter isArrayBufferBind
        = [.bindBuffer .arrayBuffer 2, .bindBuffer .arrayBuffer 0])
    ∧ (prepareTrace 1 2 3).filter isElementUnbind = []
    ∧ ((runGL (prepareTrace 1 2 3) initGLState).vaoElement.lookup 1
        = some 3)) :=
  ⟨by decide,
    prepare_keeps_index_buffer_associated 1 2 3 (by decide) (by decide) (by decide)⟩

/-! ### Input handling (`key_callback`, main.cpp lines 28-31) -/

def GLFW_KEY_ESCAPE : ℤ := 256
def GLFW_PRESS : ℤ := 1
def GLFW_RELEASE : ℤ := 0
def GLFW_REPEAT : ℤ := 2
def GLFW_TRUE : ℤ := 1

/-- The window state the callback and the loop condition touch: the
close-request flag read by `glfwWindowShouldClose`. -/
structure WindowState where
  shouldClose : Bool
deriving DecidableEq

/-- `glfwSetWindowShouldClose(window, value)` stores the flag. -/
def glfwSetWindowShouldClose (w : WindowState) (value : ℤ) : WindowState :=
  { w with shouldClose := value ≠ 0 }

/-- `key_callback` from main.cpp lines 28-31: on an Escape press it
requests window closure; otherwise it does nothing. -/
def key_callback (w : WindowState) (key _scancode action _mods : ℤ) :
    WindowState :=
  if key = GLFW_KEY_ESCAPE ∧ action = GLFW_PRESS then
    glfwSetWindowShouldClose w GLFW_TRUE
  else w

/-- Claim C10: for every key event delivered to the keyboard callback,
the close flag is set if and only if the key is Escape and the action
is a press; every other event (Escape release/repeat, any other key)
leaves the whole window state unchanged. -/
theorem key_callback_sets_close_iff_escape_press
    (w : WindowState) (key scancode action mods : ℤ) :
    ((key = GLFW_KEY_ESCAPE ∧ action = GLFW_PRESS) →
        (key_callback w key scancode action mods).shouldClose = true)
    ∧ (¬(key = GLFW_KEY_ESCAPE ∧ action = GLFW_PRESS) →
        key_callback w key scancode action mods = w) := by
  constructor
  · intro h
    simp [key_callback, h, glfwSetWindowShouldClose, GLFW_TRUE]
  · intro h
    simp [key_callback, h]

/-- Witness for C10: an Escape press (key 256, action 1) on a window
not yet requested to close sets the flag. -/
theorem key_callback_sets_close_iff_escape_press_witness :
    ((256 : ℤ) = GLFW_KEY_ESCAPE ∧ (1 : ℤ) = GLFW_PRESS) ∧
    (key_callback ⟨false⟩ 256 0 1 0).shouldClose = true :=
  ⟨by constructor <;> rfl,
    (key_callback_sets_close_iff_escape_press ⟨false⟩ 256 0 1 0).1
      (by constructor <;> rfl)⟩

/-! ### Render loop (main.cpp lines 159-176) -/

/-- An event delivered by `glfwPollEvents`: a key event dispatched to
the installed key callback, or any other event the program ignores. -/
inductive GlfwEvent where
  | keyEvent (key scancode action mods : ℤ)
  | otherEvent
deriving DecidableEq

/-- `glfwPollEvents`: dispatch the pending events to the callbacks in
order; only the key callback touches program-visible state. -/
def glfwPollEvents (w : WindowState) (events : List GlfwEvent) : WindowState :=
  events.foldl
    (fun s e =>
      match e with
      | .keyEvent k sc a m => key_callback s k sc a m
      | .otherEvent => s)
    w

/-- Per-iteration input from outside the program: the framebuffer size
`glfwGetFramebufferSize` reports, and the events pending at
`glfwPollEvents`. -/
structure FrameInput where
  fbWidth : ℤ
  fbHeight : ℤ
  events : List GlfwEvent
deriving DecidableEq

def GL_COLOR_BUFFER_BIT : ℕ := 0x00004000
def GL_DEPTH_BUFFER_BIT : ℕ := 0x00000100
def GL_STENCIL_BUFFER_BIT : ℕ := 0x00000400

inductive DrawMode where
  | triangles
  | lines
  | points
deriving DecidableEq

inductive IndexType where
  | unsignedByte
  | unsignedShort
  | unsignedInt
deriving DecidableEq

/-- Byte width of an index of the given type (`GL_UNSIGNED_INT` is 4
bytes). -/
def indexTypeSize : IndexType → ℕ
  | .unsignedByte => 1
  | .unsignedShort => 2
  | .unsignedInt => 4

/-- The calls one loop iteration issues, with their arguments. -/
inductive LoopCall where
  | getFramebufferSize (width height : ℤ)
  | viewport (x y : ℤ) (width height : ℤ)
  | clear (mask : ℕ)
  | useProgram (program : ℕ)
  | bindVertexArray (name : ℕ)
  | drawElements (mode : DrawMode) (count : ℕ) (type : IndexType) (offset : ℕ)
  | swapBuffers
  | pollEvents
deriving DecidableEq

/-- The body of the while loop, main.cpp lines 161-175, in source
order, given the framebuffer size the query reports this frame. -/
def frameTrace (shader_program vao_name : ℕ) (f : FrameInput) : List LoopCall :=
  [ .getFramebufferSize f.fbWidth f.fbHeight,
    .viewport 0 0 f.fbWidth f.fbHeight,
    .clear GL_COLOR_BUFFER_BIT,
    .useProgram shader_program,
    .bindVertexArray vao_name,
    .drawElements .triangles 6 .unsignedInt 0,
    .swapBuffers,
    .pollEvents ]

/-- Why the `while (!glfwWindowShouldClose(window))` loop stopped:
the close flag was observed set, or the modelled event stream ran out
with the flag still clear (the real loop would keep spinning). -/
inductive LoopExit where
  | closedFlag
  | outOfInput
deriving DecidableEq

/-- The render loop: at the top of each iteration the close flag is
checked; if clear, the body runs and `glfwPollEvents` (which may fire
the key callback) ends the iteration.  Returns the per-iteration call
traces, the final window state, and how the loop stopped. -/
def renderLoop (shader_program vao_name : ℕ) :
    WindowState → List FrameInput →
      List (List LoopCall) × WindowState × LoopExit
  | w, [] => ([], w, if w.shouldClose then .closedFlag else .outOfInput)
  | w, f :: fs =>
      if w.shouldClose then ([], w, .closedFlag)
      else
        let w' := glfwPollEvents w f.events
        let r := renderLoop shader_program vao_name w' fs
        (frameTrace shader_program vao_name f :: r.1, r.2)

/-- The key callback never clears an already-set close flag. -/
theorem key_callback_preserves_close (w : WindowState) (k sc a m : ℤ)
    (h : w.shouldClose = true) :
    (key_callback w k sc a m).shouldClose = true := by
  unfold key_callback glfwSetWindowShouldClose
  split <;> simp [GLFW_TRUE, h]

/-- Event processing never clears an already-set close flag. -/
theorem glfwPollEvents_preserves_close (events : List GlfwEvent) :
    ∀ w : WindowState, w.shouldClose = true →
      (glfwPollEvents w events).shouldClose = true := by
  induction events with
  | nil => intro w h; exact h
  | cons e rest ih =>
      intro w h
      cases e with
      | keyEvent k sc a m =>
          exact ih _ (key_callback_preserves_close w k sc a m h)
      | otherEvent => exact ih _ h

/-- If the pending events contain an Escape press, processing them
leaves the close flag set. -/
theorem glfwPollEvents_escape_sets_close (events : List GlfwEvent) :
    ∀ w : WindowState, ∀ sc m : ℤ,
      GlfwEvent.keyEvent GLFW_KEY_ESCAPE sc GLFW_PRESS m ∈ events →
      (glfwPollEvents w events).shouldClose = true := by
  induction events with
  | nil => intro w sc m h; cases h
  | cons e rest ih =>
      intro w sc m h
      rcases List.mem_cons.mp h with he | hrest
      · subst he
        have : (key_callback w GLFW_KEY_ESCAPE sc GLFW_PRESS m).shouldClose
            = true := by
          simp [key_callback, glfwSetWindowShouldClose, GLFW_TRUE]
        exact glfwPollEvents_preserves_close rest _ this
      · exact ih _ sc m hrest

/-- A loop entered with the close flag set exits at once via the flag
check, running no iteration. -/
theorem renderLoop_closed (shader_program vao_name : ℕ) (w : WindowState)
    (fs : List FrameInput) (h : w.shouldClose = true) :
    renderLoop shader_program vao_name w fs = ([], w, .closedFlag) := by
  cases fs with
  | nil => simp [renderLoop, h]
  | cons f fs => simp [renderLoop, h]

/-- Processing events none of which is an Escape press leaves the
window state unchanged: the callback reacts to nothing else. -/
theorem glfwPollEvents_no_escape (events : List GlfwEvent) :
    ∀ w : WindowState,
      (∀ k sc a m : ℤ, GlfwEvent.keyEvent k sc a m ∈ events →
        ¬(k = GLFW_KEY_ESCAPE ∧ a = GLFW_PRESS)) →
      glfwPollEvents w events = w := by
  induction events with
  | nil => intro w _; rfl
  | cons e rest ih =>
      intro w h
      cases e with
      | keyEvent k sc a m =>
          have hk : ¬(k = GLFW_KEY_ESCAPE ∧ a = GLFW_PRESS) :=
            h k sc a m (List.mem_cons_self _ _)
          have hstep : key_callback w k sc a m = w := by
            simp [key_callback, hk]
          show glfwPollEvents (key_callback w k sc a m) rest = w
          rw [hstep]
          exact ih w (fun k' sc' a' m' hmem => h k' sc' a' m' (List.mem_cons_of_mem _ hmem))
      | otherEvent =>
          exact ih w (fun k' sc' a' m' hmem => h k' sc' a' m' (List.mem_cons_of_mem _ hmem))

/-- Claim C7: an Escape press delivered through the keyboard callback
during an iteration's event processing sets the close flag, and the
loop exits at its next top-of-iteration check: exactly the current
iteration runs, the loop stops via the flag, and the flag is set.
Moreover Escape presses are the only key binding: events without an
Escape press leave the window state unchanged. -/
theorem escape_press_closes_loop (shader_program vao_name : ℕ)
    (w : WindowState) (f : FrameInput) (fs : List FrameInput) (sc m : ℤ)
    (hw : w.shouldClose = false)
    (hesc : GlfwEvent.keyEvent GLFW_KEY_ESCAPE sc GLFW_PRESS m ∈ f.events) :
    ((renderLoop shader_program vao_name w (f :: fs)).2.2 = .closedFlag
      ∧ (renderLoop shader_program vao_name w (f :: fs)).1.length = 1
      ∧ (renderLoop shader_program vao_name w (f :: fs)).2.1.shouldClose = true)
    ∧ (∀ (w' : WindowState) (events : List GlfwEvent),
        (∀ k sc' a m' : ℤ, GlfwEvent.keyEvent k sc' a m' ∈ events →
          ¬(k = GLFW_KEY_ESCAPE ∧ a = GLFW_PRESS)) →
        glfwPollEvents w' events = w') := by
  have hflag : (glfwPollEvents w f.events).shouldClose = true :=
    glfwPollEvents_escape_sets_close f.events w sc m hesc
  have hrest :=
    renderLoop_closed shader_program vao_name (glfwPollEvents w f.events) fs hflag
  refine ⟨⟨?_, ?_, ?_⟩, fun w' events h => glfwPollEvents_no_escape events w' h⟩ <;>
    simp [renderLoop, hw, hrest, hflag]

/-- Witness for C7: one frame whose events hold the Escape press
(key 256, action 1); the loop runs that iteration and exits. -/
theorem escape_press_closes_loop_witness :
    ((⟨false⟩ : WindowState).shouldClose = false
      ∧ GlfwEvent.keyEvent GLFW_KEY_ESCAPE 0 GLFW_PRESS 0 ∈
          (⟨640, 480, [GlfwEvent.keyEvent 256 0 1 0]⟩ : FrameInput).events)
    ∧ (((renderLoop 7 1 ⟨false⟩
            [⟨640, 480, [GlfwEvent.keyEvent 256 0 1 0]⟩]).2.2 = .closedFlag
      ∧ (renderLoop 7 1 ⟨false⟩
            [⟨640, 480, [GlfwEvent.keyEvent 256 0 1 0]⟩]).1.length = 1
      ∧ (renderLoop 7 1 ⟨false⟩
            [⟨640, 480, [GlfwEvent.keyEvent 256 0 1 0]⟩]).2.1.shouldClose = true)
    ∧ (∀ (w' : WindowState) (events : List GlfwEvent),
        (∀ k sc' a m' : ℤ, GlfwEvent.keyEvent k sc' a m' ∈ events →
          ¬(k = GLFW_KEY_ESCAPE ∧ a = GLFW_PRESS)) →
        glfwPollEvents w' events = w')) :=
  ⟨⟨rfl, by decide⟩,
    escape_press_closes_loop 7 1 ⟨false⟩ ⟨640, 480, [GlfwEvent.keyEvent 256 0 1 0]⟩
      [] 0 0 rfl (by decide)⟩

/-- A call that issues an indexed draw. -/
def isDrawCall : LoopCall → Bool
  | .drawElements _ _ _ _ => true
  | _ => false

/-- Every iteration the loop actually runs is one instance of the
fixed body. -/
theorem renderLoop_frames (shader_program vao_name : ℕ) :
    ∀ (w : WindowState) (fs : List FrameInput) (t : List LoopCall),
      t ∈ (renderLoop shader_program vao_name w fs).1 →
      ∃ f : FrameInput, t = frameTrace shader_program vao_name f := by
  intro w fs
  induction fs generalizing w with
  | nil => intro t ht; simp [renderLoop] at ht
  | cons f fs ih =>
      intro t ht
      by_cases hw : w.shouldClose
      · simp [renderLoop, hw] at ht
      · simp only [renderLoop, hw, if_neg, Bool.false_eq_true, ite_false,
          List.mem_cons] at ht
        rcases ht with rfl | h
        · exact ⟨f, rfl⟩
        · exact ih _ _ h

/-- Claim C4: every iteration of the render loop performs, in this
order: query the framebuffer size, set the viewport to that queried
size, clear exactly the color buffer, activate the shader program,
bind the vertex array object, issue exactly one indexed draw of 6
indices as triangles with 4-byte unsigned indices at offset 0, present
the back buffer, and process pending events. -/
theorem loop_iteration_call_order (shader_program vao_name : ℕ)
    (w : WindowState) (fs : List FrameInput) (t : List LoopCall)
    (ht : t ∈ (renderLoop shader_program vao_name w fs).1) :
    (∃ W H : ℤ,
        t = [ .getFramebufferSize W H,
              .viewport 0 0 W H,
              .clear GL_COLOR_BUFFER_BIT,
              .useProgram shader_program,
              .bindVertexArray vao_name,
              .drawElements .triangles 6 .unsignedInt 0,
              .swapBuffers,
              .pollEvents ])
    ∧ (t.filter isDrawCall).length = 1
    ∧ GL_COLOR_BUFFER_BIT &&& GL_DEPTH_BUFFER_BIT = 0
    ∧ GL_COLOR_BUFFER_BIT &&& GL_STENCIL_BUFFER_BIT = 0
    ∧ indexTypeSize .unsignedInt = 4 := by
  obtain ⟨f, rfl⟩ := renderLoop_frames shader_program vao_name w fs t ht
  refine ⟨⟨f.fbWidth, f.fbHeight, rfl⟩, ?_, by decide, by decide, rfl⟩
  simp [frameTrace, isDrawCall]

/-- Witness for C4: a one-frame run of the loop; its single iteration
trace has the stated shape. -/
theorem loop_iteration_call_order_witness :
    (frameTrace 7 1 ⟨640, 480, []⟩ ∈ (renderLoop 7 1 ⟨false⟩ [⟨640, 480, []⟩]).1)
    ∧ ((∃ W H : ℤ,
        frameTrace 7 1 ⟨640, 480, []⟩ =
          [ .getFramebufferSize W H,
            .viewport 0 0 W H,
            .clear GL_COLOR_BUFFER_BIT,
            .useProgram 7,
            .bindVertexArray 1,
            .drawElements .triangles 6 .unsignedInt 0,
            .swapBuffers,
            .pollEvents ])
    ∧ ((frameTrace 7 1 ⟨640, 480, []⟩).filter isDrawCall).length = 1
    ∧ GL_COLOR_BUFFER_BIT &&& GL_DEPTH_BUFFER_BIT = 0
    ∧ GL_COLOR_BUFFER_BIT &&& GL_STENCIL_BUFFER_BIT = 0
    ∧ indexTypeSize .unsignedInt = 4) :=
  ⟨by decide,
    loop_iteration_call_order 7 1 ⟨false⟩ [⟨640, 480, []⟩]
      (frameTrace 7 1 ⟨640, 480, []⟩) (by decide)⟩

/-! ### Shader program build (`create_shader_program`, main.cpp lines 95-145) -/

inductive ShaderStage where
  | vertexStage
  | fragmentStage
deriving DecidableEq

/-- The graphics-API calls `create_shader_program` issues. -/
inductive ShaderCall where
  | createShader (stage : ShaderStage) (name : ℕ)
  | shaderSource (shader : ℕ)
  | compileShader (shader : ℕ)
  | getShaderiv (shader : ℕ)
  | getShaderInfoLog (shader : ℕ) (bufSize : ℕ)
  | createProgram (name : ℕ)
  | attachShader (program shader : ℕ)
  | linkProgram (program : ℕ)
  | getProgramiv (program : ℕ)
  | getProgramInfoLog (program : ℕ) (bufSize : ℕ)
  | deleteShader (shader : ℕ)
deriving DecidableEq

inductive OutStream where
  | standardOut
  | standardErr
deriving DecidableEq

/-- One diagnostic written to the console: the stream it goes to, the
fixed header line, and the retrieved log text that follows it. -/
structure ConsoleLine where
  stream : OutStream
  header : String
  body : String
deriving DecidableEq

def vertexFailHeader : String := "ERROR::SHADER::VERTEX::COMPILATION_FAILED"
def fragmentFailHeader : String := "ERROR::SHADER::FRAGMENT::COMPILATION_FAILED"
def linkFailHeader : String := "ERROR::SHADER::PROGRAM::LINKING_FAILED"

/-- What the driver reports to `create_shader_program`: the names the
`glCreate*` calls return, the compile/link status flags, and the info
logs. -/
structure ShaderOracle where
  vertexShaderName : ℕ
  fragmentShaderName : ℕ
  programName : ℕ
  vertexCompileOk : Bool
  fragmentCompileOk : Bool
  linkOk : Bool
  vertexLog : String
  fragmentLog : String
  linkLog : String
deriving DecidableEq

/-- The log as retrieved into the 512-byte `infoLog` buffer: at most
511 characters plus the terminator. -/
def boundedLog (s : String) : String := String.mk (s.data.take 511)

/-- Result of `create_shader_program`: the returned program name, the
calls issued, and the console diagnostics written. -/
structure ShaderBuildResult where
  program : ℕ
  calls : List ShaderCall
  console : List ConsoleLine
deriving DecidableEq

/-- `create_shader_program` (main.cpp lines 95-145): compile the vertex
shader, check its status and log a diagnostic on failure; likewise for
the fragment shader; create a program, attach both shaders, link,
check link status and log on failure; delete both shader objects; and
return the program name.  No branch aborts: every path reaches the
return. -/
def create_shader_program (o : ShaderOracle) : ShaderBuildResult :=
  { program := o.programName,
    calls :=
      [ .createShader .vertexStage o.vertexShaderName,
        .shaderSource o.vertexShaderName,
        .compileShader o.vertexShaderName,
        .getShaderiv o.vertexShaderName ]
      ++ (if o.vertexCompileOk then []
          else [.getShaderInfoLog o.vertexShaderName 512])
      ++ [ .createShader .fragmentStage o.fragmentShaderName,
           .shaderSource o.fragmentShaderName,
           .compileShader o.fragmentShaderName,
           .getShaderiv o.fragmentShaderName ]
      ++ (if o.fragmentCompileOk then []
          else [.getShaderInfoLog o.fragmentShaderName 512])
      ++ [ .createProgram o.programName,
           .attachShader o.programName o.vertexShaderName,
           .attachShader o.programName o.fragmentShaderName,
           .linkProgram o.programName,
           .getProgramiv o.programName ]
      ++ (if o.linkOk then []
          else [.getProgramInfoLog o.programName 512])
      ++ [ .deleteShader o.vertexShaderName,
           .deleteShader o.fragmentShaderName ],
    console :=
      (if o.vertexCompileOk then []
       else [⟨.standardOut, vertexFailHeader, boundedLog o.vertexLog⟩])
      ++ (if o.fragmentCompileOk then []
          else [⟨.standardOut, fragmentFailHeader, boundedLog o.fragmentLog⟩])
      ++ (if o.linkOk then []
          else [⟨.standardOut, linkFailHeader, boundedLog o.linkLog⟩]) }

/-- Claim C5: if vertex shader compilation fails, the log is retrieved
into the bounded 512-byte buffer and written to the console, and
execution continues regardless: the fragment shader is still compiled,
the program is still linked, the program name is still returned, and
the retrieved log never exceeds the buffer. -/
theorem vertex_compile_failure_continues (o : ShaderOracle)
    (h : o.vertexCompileOk = false) :
    (ConsoleLine.mk .standardOut vertexFailHeader (boundedLog o.vertexLog) ∈
        (create_shader_program o).console)
    ∧ ShaderCall.getShaderInfoLog o.vertexShaderName 512 ∈
        (create_shader_program o).calls
    ∧ (boundedLog o.vertexLog).length ≤ 511
    ∧ ShaderCall.compileShader o.fragmentShaderName ∈
        (create_shader_program o).calls
    ∧ ShaderCall.linkProgram o.programName ∈
        (create_shader_program o).calls
    ∧ (create_shader_program o).program = o.programName := by
  have hb : (boundedLog o.vertexLog).length ≤ 511 := by
    rw [boundedLog, String.length_eq_list_length, List.length_take]
    exact min_le_left _ _
  refine ⟨?_, ?_, hb, ?_, ?_, rfl⟩ <;> simp [create_shader_program, h]

/-- A driver report where only the vertex compile fails. -/
def vertexFailOracle : ShaderOracle :=
  ⟨4, 5, 6, false, true, true, "bad vertex shader", "", ""⟩

/-- Witness for C5 at `vertexFailOracle`. -/
theorem vertex_compile_failure_continues_witness :
    vertexFailOracle.vertexCompileOk = false ∧
    ((ConsoleLine.mk .standardOut vertexFailHeader
          (boundedLog vertexFailOracle.vertexLog) ∈
        (create_shader_program vertexFailOracle).console)
    ∧ ShaderCall.getShaderInfoLog vertexFailOracle.vertexShaderName 512 ∈
        (create_shader_program vertexFailOracle).calls
    ∧ (boundedLog vertexFailOracle.vertexLog).length ≤ 511
    ∧ ShaderCall.compileShader vertexFailOracle.fragmentShaderName ∈
        (create_shader_program vertexFailOracle).calls
    ∧ ShaderCall.linkProgram vertexFailOracle.programName ∈
        (create_shader_program vertexFailOracle).calls
    ∧ (create_shader_program vertexFailOracle).program
        = vertexFailOracle.programName) :=
  ⟨rfl, vertex_compile_failure_continues vertexFailOracle rfl⟩

/-- Claim C6: a diagnostic with the fixed vertex / fragment / link
failure header is written exactly when the corresponding status flag
is false; everything written goes to the standard output stream; and
when all three flags are true nothing is written at all. -/
theorem diagnostics_iff_failure (o : ShaderOracle) :
    ((∃ b : String, ConsoleLine.mk .standardOut vertexFailHeader b ∈
        (create_shader_program o).console) ↔ o.vertexCompileOk = false)
    ∧ ((∃ b : String, ConsoleLine.mk .standardOut fragmentFailHeader b ∈
        (create_shader_program o).console) ↔ o.fragmentCompileOk = false)
    ∧ ((∃ b : String, ConsoleLine.mk .standardOut linkFailHeader b ∈
        (create_shader_program o).console) ↔ o.linkOk = false)
    ∧ (∀ l ∈ (create_shader_program o).console, l.stream = .standardOut)
    ∧ (o.vertexCompileOk = true → o.fragmentCompileOk = true →
        o.linkOk = true → (create_shader_program o).console = []) := by
  have hv : vertexFailHeader ≠ fragmentFailHeader := by decide
  have hv2 : vertexFailHeader ≠ linkFailHeader := by decide
  have hf : fragmentFailHeader ≠ vertexFailHeader := by decide
  have hf2 : fragmentFailHeader ≠ linkFailHeader := by decide
  have hl : linkFailHeader ≠ vertexFailHeader := by decide
  have hl2 : linkFailHeader ≠ fragmentFailHeader := by decide
  cases hvo : o.vertexCompileOk <;> cases hfo : o.fragmentCompileOk <;>
    cases hlo : o.linkOk <;>
    simp_all [create_shader_program, ConsoleLine.mk.injEq]

/-- A driver report where everything succeeds. -/
def allOkOracle : ShaderOracle := ⟨4, 5, 6, true, true, true, "", "", ""⟩

/-- Witness for C6: with every status flag true, the console output is
empty. -/
theorem diagnostics_iff_failure_witness :
    (create_shader_program allOkOracle).console = [] :=
  (diagnostics_iff_failure allOkOracle).2.2.2.2 rfl rfl rfl

/-! ### Shutdown (main.cpp lines 178-188) -/

/-- The calls main issues after the render loop exits. -/
inductive ShutdownCall where
  | destroyWindow
  | deleteVertexArrays (name : ℕ)
  | deleteBuffers (name : ℕ)
  | deleteProgram (name : ℕ)
  | glfwTerminate
  | exitProcess (code : ℕ)
deriving DecidableEq

/-- The shutdown sequence of main.cpp lines 178-188, in source order:
`glfwDestroyWindow` first, then the three GPU-object deletions and the
program deletion, then `glfwTerminate`, then `exit(EXIT_SUCCESS)`. -/
def shutdownTrace (vao_name vbo_name ibo_name shader_program : ℕ) :
    List ShutdownCall :=
  [ .destroyWindow,
    .deleteVertexArrays vao_name,
    .deleteBuffers vbo_name,
    .deleteBuffers ibo_name,
    .deleteProgram shader_program,
    .glfwTerminate,
    .exitProcess 0 ]

/-- A call that deletes a GPU object (buffer, vertex array, or shader
program). -/
def isDeletion : ShutdownCall → Bool
  | .deleteVertexArrays _ => true
  | .deleteBuffers _ => true
  | .deleteProgram _ => true
  | _ => false

/-- The ordering property claim C3 asserts: every GPU-object deletion
happens before the window (and with it the rendering context) is
destroyed, so that a valid context is still current during deletion. -/
def deletionsBeforeWindowDestruction (t : List ShutdownCall) : Prop :=
  ∀ i j : Fin t.length,
    isDeletion (t.get i) = true → t.get j = ShutdownCall.destroyWindow →
      (i : ℕ) < (j : ℕ)

instance (t : List ShutdownCall) :
    Decidable (deletionsBeforeWindowDestruction t) := by
  unfold deletionsBeforeWindowDestruction
  infer_instance

/-- Counterexample to C3: in the program's actual shutdown sequence
(here at names vao = 1, vbo = 2, ibo = 3, program = 7), the window is
destroyed first, at index 0, before any of the four deletions at
indices 1-4 — not after them. -/
theorem shutdown_deletions_not_before_destroy :
    ¬ deletionsBeforeWindowDestruction (shutdownTrace 1 2 3 7) := by
  decide

/-- Amended C3: at shutdown, after the render loop exits, the window
is destroyed first; the deletions of the three geometry GPU objects
and the shader program happen after the window destruction (so no
context tied to that window is guaranteed current during them); the
windowing-library teardown and the process exit come after those
deletions. -/
theorem shutdown_order (vao_name vbo_name ibo_name shader_program : ℕ) :
    ((shutdownTrace vao_name vbo_name ibo_name shader_program).head?
        = some ShutdownCall.destroyWindow)
    ∧ (∀ (i : ℕ) (c : ShutdownCall),
        (shutdownTrace vao_name vbo_name ibo_name shader_program)[i]? = some c →
        isDeletion c = true →
          0 < i ∧ i < 5)
    ∧ ((shutdownTrace vao_name vbo_name ibo_name shader_program)[5]?
        = some ShutdownCall.glfwTerminate)
    ∧ ((shutdownTrace vao_name vbo_name ibo_name shader_program)[6]?
        = some (ShutdownCall.exitProcess 0))
    ∧ ((shutdownTrace vao_name vbo_name ibo_name shader_program).filter isDeletion
        = [ .deleteVertexArrays vao_name, .deleteBuffers vbo_name,
            .deleteBuffers ibo_name, .deleteProgram shader_program ]) := by
  refine ⟨rfl, ?_, rfl, rfl, by simp [shutdownTrace, isDeletion]⟩
  intro i c hc hd
  have hlt : i < 7 := by
    by_contra hge
    push_neg at hge
    rw [List.getElem?_eq_none (by simpa [shutdownTrace] using hge)] at hc
    cases hc
  interval_cases i <;> simp_all [shutdownTrace, isDeletion] <;>
    (cases hc; simp [isDeletion] at hd)

/-! ### The whole program (`main`, main.cpp lines 147-189) -/

def EXIT_SUCCESS : ℕ := 0

/-- Everything observable about one run of `main`, given the
driver-allocated names, the driver's shader report, and the stream of
per-frame inputs. -/
structure MainResult where
  drawData : OpenGLDrawingData
  setupCalls : List GLCall
  shaderResult : ShaderBuildResult
  frames : List (List LoopCall)
  finalWindow : WindowState
  loopExit : LoopExit
  shutdownCalls : List ShutdownCall
  exitCode : ℕ
deriving DecidableEq

/-- `main` (main.cpp lines 147-189): bootstrap (external, window starts
with the close flag clear), geometry setup, shader build, render loop,
then shutdown and `exit(EXIT_SUCCESS)` unconditionally. -/
def mainRun (vao vbo ibo : ℕ) (o : ShaderOracle) (fs : List FrameInput) :
    MainResult :=
  let pd := prepare_drawing_data_and_opengl_drawing_data vao vbo ibo
  let sr := create_shader_program o
  let lr := renderLoop sr.program pd.1.vao_name ⟨false⟩ fs
  { drawData := pd.1,
    setupCalls := pd.2,
    shaderResult := sr,
    frames := lr.1,
    finalWindow := lr.2.1,
    loopExit := lr.2.2,
    shutdownCalls :=
      shutdownTrace pd.1.vao_name pd.1.vbo_name pd.1.ibo_name sr.program,
    exitCode := EXIT_SUCCESS }

/-- Claim C9: whenever the loop exits on the normal path (via the
close flag), the process exits with status 0 — for every driver report
`o`, including ones where compilation or linking failed, so no
distinct failure exit code is ever produced; the final shutdown call
is `exit` with code 0. -/
theorem normal_path_exit_code_zero (vao vbo ibo : ℕ) (o : ShaderOracle)
    (fs : List FrameInput)
    (h : (mainRun vao vbo ibo o fs).loopExit = .closedFlag) :
    (mainRun vao vbo ibo o fs).exitCode = 0
    ∧ (mainRun vao vbo ibo o fs).shutdownCalls.getLast?
        = some (ShutdownCall.exitProcess 0) := by
  exact ⟨rfl, rfl⟩

/-- Witness for C9: a run whose single frame delivers the Escape
press, with a driver report where compilation and linking all failed;
the loop exits via the flag and the exit code is still 0. -/
theorem normal_path_exit_code_zero_witness :
    (mainRun 1 2 3 ⟨4, 5, 6, false, false, false, "v", "f", "l"⟩
        [⟨640, 480, [GlfwEvent.keyEvent 256 0 1 0]⟩]).loopExit = .closedFlag
    ∧ ((mainRun 1 2 3 ⟨4, 5, 6, false, false, false, "v", "f", "l"⟩
        [⟨640, 480, [GlfwEvent.keyEvent 256 0 1 0]⟩]).exitCode = 0
    ∧ (mainRun 1 2 3 ⟨4, 5, 6, false, false, false, "v", "f", "l"⟩
        [⟨640, 480, [GlfwEvent.keyEvent 256 0 1 0]⟩]).shutdownCalls.getLast?
        = some (ShutdownCall.exitProcess 0)) :=
  ⟨by decide,
    normal_path_exit_code_zero 1 2 3 ⟨4, 5, 6, false, false, false, "v", "f", "l"⟩
      [⟨640, 480, [GlfwEvent.keyEvent 256 0 1 0]⟩] (by decide)⟩

end MweGlfw
